import Mathlib

set_option linter.unusedVariables false

/-!
Verification of the transport/signing subsystem of a REST trading API client
(`src/transport.rs`).  The development shallowly embeds the Rust code:
machine integers become `Nat`/`Int` with explicit reduction modulo `2^32`
where the code's arithmetic wraps, fallible operations return `Except`,
and the wall clock of `Utc::now()` becomes an explicit `now : Int` argument.
The HMAC-SHA256 primitive used by `ring::hmac` is implemented executably
from FIPS 180-4 / RFC 2104 so that concrete signatures evaluate inside Lean.
-/

namespace BitMEX

/-! ## 32-bit words as `Nat` reduced mod `2^32` (FIPS 180-4 arithmetic) -/

/-- Truncate to a 32-bit word. -/
def mask32 (x : Nat) : Nat := x &&& 0xFFFFFFFF

/-- Right rotation of a 32-bit word. -/
def rotr32 (n x : Nat) : Nat := mask32 ((x >>> n) ||| (x <<< (32 - n)))

/-- Bitwise complement of a 32-bit word. -/
def not32 (x : Nat) : Nat := x ^^^ 0xFFFFFFFF

/-- SHA-256 `Ch` function. -/
def sha2Ch (x y z : Nat) : Nat := (x &&& y) ^^^ (not32 x &&& z)

/-- SHA-256 `Maj` function. -/
def sha2Maj (x y z : Nat) : Nat := (x &&& y) ^^^ (x &&& z) ^^^ (y &&& z)

/-- SHA-256 big sigma 0. -/
def bsig0 (x : Nat) : Nat := rotr32 2 x ^^^ rotr32 13 x ^^^ rotr32 22 x

/-- SHA-256 big sigma 1. -/
def bsig1 (x : Nat) : Nat := rotr32 6 x ^^^ rotr32 11 x ^^^ rotr32 25 x

/-- SHA-256 small sigma 0. -/
def ssig0 (x : Nat) : Nat := rotr32 7 x ^^^ rotr32 18 x ^^^ (x >>> 3)

/-- SHA-256 small sigma 1. -/
def ssig1 (x : Nat) : Nat := rotr32 17 x ^^^ rotr32 19 x ^^^ (x >>> 10)

/-- Big-endian byte decomposition: `toBytesBE n v` is `v` as `n` bytes,
most significant first. -/
def toBytesBE : Nat → Nat → List Nat
  | 0, _ => []
  | n + 1, v => toBytesBE n (v >>> 8) ++ [v &&& 0xFF]

/-- The 64 SHA-256 round constants (FIPS 180-4 section 4.2.2), in the
rows of eight of the standard's table. -/
def sha2K : List Nat :=
  [0x428a2f98, 0x71374491, 0xb5c0fbcf, 0xe9b5dba5, 0x3956c25b, 0x59f111f1, 0x923f82a4, 0xab1c5ed5] ++
  [0xd807aa98, 0x12835b01, 0x243185be, 0x550c7dc3, 0x72be5d74, 0x80deb1fe, 0x9bdc06a7, 0xc19bf174] ++
  [0xe49b69c1, 0xefbe4786, 0x0fc19dc6, 0x240ca1cc, 0x2de92c6f, 0x4a7484aa, 0x5cb0a9dc, 0x76f988da] ++
  [0x983e5152, 0xa831c66d, 0xb00327c8, 0xbf597fc7, 0xc6e00bf3, 0xd5a79147, 0x06ca6351, 0x14292967] ++
  [0x27b70a85, 0x2e1b2138, 0x4d2c6dfc, 0x53380d13, 0x650a7354, 0x766a0abb, 0x81c2c92e, 0x92722c85] ++
  [0xa2bfe8a1, 0xa81a664b, 0xc24b8b70, 0xc76c51a3, 0xd192e819, 0xd6990624, 0xf40e3585, 0x106aa070] ++
  [0x19a4c116, 0x1e376c08, 0x2748774c, 0x34b0bcb5, 0x391c0cb3, 0x4ed8aa4a, 0x5b9cca4f, 0x682e6ff3] ++
  [0x748f82ee, 0x78a5636f, 0x84c87814, 0x8cc70208, 0x90befffa, 0xa4506ceb, 0xbef9a3f7, 0xc67178f2]

/-- Pad a byte-level message per FIPS 180-4 section 5.1.1: append `0x80`,
then zeros to 56 mod 64, then the bit length as 8 big-endian bytes. -/
def sha2Pad (msg : List Nat) : List Nat :=
  let len := msg.length
  let k := (119 - (len % 64)) % 64
  msg ++ [0x80] ++ List.replicate k 0 ++ toBytesBE 8 (len * 8)

/-- Split a byte list into 64-byte chunks, with a fuel argument for
structural recursion (call with fuel at least the list length). -/
def chunks64 : Nat → List Nat → List (List Nat)
  | 0, _ => []
  | _, [] => []
  | fuel + 1, bs => bs.take 64 :: chunks64 fuel (bs.drop 64)

/-- Assemble big-endian 32-bit words from bytes. -/
def bytesToWords : List Nat → List Nat
  | a :: b :: c :: d :: rest =>
      ((((a <<< 8) ||| b) <<< 8 ||| c) <<< 8 ||| d) :: bytesToWords rest
  | _ => []

/-- Extend the 16-word schedule; `acc` holds the words produced so far in
reverse order (newest first). -/
def extendSchedule : Nat → List Nat → List Nat
  | 0, acc => acc
  | fuel + 1, acc =>
      let w2 := acc.getD 1 0
      let w7 := acc.getD 6 0
      let w15 := acc.getD 14 0
      let w16 := acc.getD 15 0
      extendSchedule fuel (mask32 (ssig1 w2 + w7 + ssig0 w15 + w16) :: acc)

/-- The 64-entry message schedule of one chunk (FIPS 180-4 section 6.2.2). -/
def messageSchedule (ws : List Nat) : List Nat :=
  (extendSchedule 48 ws.reverse).reverse

/-- SHA-256 working state: eight 32-bit words. -/
structure Hash8 where
  a : Nat
  b : Nat
  c : Nat
  d : Nat
  e : Nat
  f : Nat
  g : Nat
  h : Nat
deriving DecidableEq, Repr

/-- The SHA-256 initial hash value. -/
def sha2Init : Hash8 :=
  ⟨0x6a09e667, 0xbb67ae85, 0x3c6ef372, 0xa54ff53a, 0x510e527f, 0x9b05688c, 0x1f83d9ab, 0x5be0cd19⟩

/-- One SHA-256 round: consume one `(K_t, W_t)` pair. -/
def sha2Round (s : Hash8) (kw : Nat × Nat) : Hash8 :=
  let t1 := mask32 (s.h + bsig1 s.e + sha2Ch s.e s.f s.g + kw.1 + kw.2)
  let t2 := mask32 (bsig0 s.a + sha2Maj s.a s.b s.c)
  ⟨mask32 (t1 + t2), s.a, s.b, s.c, mask32 (s.d + t1), s.e, s.f, s.g⟩

/-- Process one 64-byte chunk: 64 rounds, then add to the running state. -/
def sha2Chunk (s : Hash8) (chunk : List Nat) : Hash8 :=
  let w := messageSchedule (bytesToWords chunk)
  let t := (sha2K.zip w).foldl sha2Round s
  ⟨mask32 (s.a + t.a), mask32 (s.b + t.b), mask32 (s.c + t.c), mask32 (s.d + t.d),
   mask32 (s.e + t.e), mask32 (s.f + t.f), mask32 (s.g + t.g), mask32 (s.h + t.h)⟩

/-- SHA-256 of a byte list, as 32 bytes. -/
def sha256 (msg : List Nat) : List Nat :=
  let padded := sha2Pad msg
  let fin := (chunks64 padded.length padded).foldl sha2Chunk sha2Init
  toBytesBE 4 fin.a ++ toBytesBE 4 fin.b ++ toBytesBE 4 fin.c ++ toBytesBE 4 fin.d ++
  toBytesBE 4 fin.e ++ toBytesBE 4 fin.f ++ toBytesBE 4 fin.g ++ toBytesBE 4 fin.h

/-- HMAC-SHA256 (RFC 2104) of a message under a key, as 32 bytes.
This is what `ring::hmac::sign` with `digest::SHA256` computes. -/
def hmacSha256 (key msg : List Nat) : List Nat :=
  let k0 := if 64 < key.length then sha256 key else key
  let kp := k0 ++ List.replicate (64 - k0.length) 0
  sha256 ((kp.map (· ^^^ 0x5c)) ++ sha256 ((kp.map (· ^^^ 0x36)) ++ msg))

/-- Lowercase hex digit. -/
def hexChar : Nat → Char
  | 0 => '0' | 1 => '1' | 2 => '2' | 3 => '3' | 4 => '4' | 5 => '5' | 6 => '6' | 7 => '7'
  | 8 => '8' | 9 => '9' | 10 => 'a' | 11 => 'b' | 12 => 'c' | 13 => 'd' | 14 => 'e' | _ => 'f'

/-- Lowercase hex encoding of a byte list; models `hex::encode`. -/
def hexify (bs : List Nat) : String :=
  String.mk (bs.foldr (fun b acc => hexChar (b >>> 4) :: hexChar (b &&& 0xF) :: acc) [])

/-- UTF-8 encoding of one character. -/
def utf8Char (c : Char) : List Nat :=
  let n := c.toNat
  if n < 0x80 then [n]
  else if n < 0x800 then [0xC0 ||| (n >>> 6), 0x80 ||| (n &&& 0x3F)]
  else if n < 0x10000 then
    [0xE0 ||| (n >>> 12), 0x80 ||| ((n >>> 6) &&& 0x3F), 0x80 ||| (n &&& 0x3F)]
  else
    [0xF0 ||| (n >>> 18), 0x80 ||| ((n >>> 12) &&& 0x3F),
     0x80 ||| ((n >>> 6) &&& 0x3F), 0x80 ||| (n &&& 0x3F)]

/-- UTF-8 bytes of a string; models Rust `str::as_bytes`. -/
def strBytes (s : String) : List Nat :=
  s.toList.foldr (fun c acc => utf8Char c ++ acc) []

/-! ## The data model of `transport.rs` -/

/-- The HTTP methods used by the transport (`hyper::Method` values that
appear in the source). -/
inductive Method where
  | GET
  | POST
  | PUT
  | DELETE
deriving DecidableEq, Repr

/-- Models `hyper::Method::as_str` on the methods above: the uppercase
method name. -/
def Method.as_str : Method → String
  | .GET => "GET"
  | .POST => "POST"
  | .PUT => "PUT"
  | .DELETE => "DELETE"

/-- The part of a parsed `url::Url` that the transport consumes: the path
component and the optional query string (`Url::path` and `Url::query`). -/
structure Url where
  path : String
  query : Option String
deriving DecidableEq, Repr

/-- The unified failure type.  `NoApiKeySet` is the variant `transport.rs`
raises itself.  The remaining variants are modelled from the spec: the
repository's `error` module is not under `src/`, and section 7 of the spec
lists an API error carrying the server-supplied message and optional name,
a deserialization error, a URL construction error, and a transport error. -/
inductive BitMEXError where
  | NoApiKeySet
  | ApiError (message : String) (name : Option String)
  | DecodeError
  | UrlError
  | TransportError
deriving DecidableEq, Repr

/-- The transport: an optional `(api_key, api_secret)` credential.  The
`hyper` HTTP client field carries no signing-relevant state and is omitted;
dispatch is modelled by returning the fully built request. -/
structure Transport where
  credential : Option (String × String)
deriving DecidableEq, Repr

/-- Models `Transport::new`. -/
def Transport.new : Transport := ⟨none⟩

/-- Models `Transport::with_credential`. -/
def Transport.with_credential (api_key api_secret : String) : Transport :=
  ⟨some (api_key, api_secret)⟩

/-- Models `Transport::check_key`: the credential, or `NoApiKeySet`. -/
def Transport.check_key (t : Transport) : Except BitMEXError (String × String) :=
  match t.credential with
  | none => .error .NoApiKeySet
  | some (k, s) => .ok (k, s)

/-- The `sign_message` string built inside `Transport::signature`: with a
query the concatenation of the verb, the path, a question mark, the query,
the decimal expiry and the body; without a query the same minus the query
segment. -/
def sign_message (method : Method) (expires : Int) (url : Url) (body : String) : String :=
  match url.query with
  | some query => method.as_str ++ url.path ++ "?" ++ query ++ toString expires ++ body
  | none => method.as_str ++ url.path ++ toString expires ++ body

/-- Models `Transport::signature`: check the credential, then return the
key together with the lowercase-hex HMAC-SHA256 of the sign message under
the secret. -/
def Transport.signature (t : Transport) (method : Method) (expires : Int) (url : Url)
    (body : String) : Except BitMEXError (String × String) :=
  match t.check_key with
  | .error e => .error e
  | .ok (key, secret) =>
      .ok (key, hexify (hmacSha256 (strBytes secret) (strBytes (sign_message method expires url body))))

/-! ## Body serialization: `BTreeMap` collection and `serde_json::to_string` -/

/-- Insertion into an association list kept strictly sorted by key; an
existing key's value is overwritten.  This is `BTreeMap::insert` observed
through the map's sorted entry sequence. -/
def btreeInsert : List (String × String) → String × String → List (String × String)
  | [], kv => [kv]
  | (k', v') :: rest, (k, v) =>
      if k < k' then (k, v) :: (k', v') :: rest
      else if k = k' then (k, v) :: rest
      else (k', v') :: btreeInsert rest (k, v)

/-- Collecting an iterator of pairs into a `BTreeMap<String, String>`,
observed as its sorted entry sequence. -/
def btreeOfList (l : List (String × String)) : List (String × String) :=
  l.foldl btreeInsert []

/-- JSON escaping of one character as `serde_json` performs it: quote and
backslash escaped, the five short control escapes, `\u00XX` for the other
control characters, everything else verbatim. -/
def jsonEscapeChar (c : Char) : String :=
  let n := c.toNat
  if n = 34 then "\\\""
  else if n = 92 then "\\\\"
  else if n = 8 then "\\b"
  else if n = 9 then "\\t"
  else if n = 10 then "\\n"
  else if n = 12 then "\\f"
  else if n = 13 then "\\r"
  else if n < 32 then "\\u00" ++ String.mk [hexChar (n >>> 4), hexChar (n &&& 0xF)]
  else String.singleton c

/-- A JSON string literal for `s`. -/
def jsonString (s : String) : String :=
  "\"" ++ s.toList.foldr (fun c acc => jsonEscapeChar c ++ acc) "" ++ "\""

/-- Models `serde_json::to_string` on a `BTreeMap<String, String>` given as
its sorted entry sequence: a compact JSON object, keys in entry order. -/
def jsonCompact (m : List (String × String)) : String :=
  "\x7b" ++ String.intercalate "," (m.map fun kv => jsonString kv.1 ++ ":" ++ jsonString kv.2) ++ "\x7d"

/-- The body string of a request: the compact JSON of the key-sorted field
map when data is present, the empty string otherwise (`signed_request`'s
`body` local; `request` serializes the same bytes via `to_vec`). -/
def bodyString (data : Option (List (String × String))) : String :=
  match data with
  | some d => jsonCompact (btreeOfList d)
  | none => ""

/-! ## URL construction -/

/-- Uppercase hex digit, for percent-encoding. -/
def hexCharUpper : Nat → Char
  | 0 => '0' | 1 => '1' | 2 => '2' | 3 => '3' | 4 => '4' | 5 => '5' | 6 => '6' | 7 => '7'
  | 8 => '8' | 9 => '9' | 10 => 'A' | 11 => 'B' | 12 => 'C' | 13 => 'D' | 14 => 'E' | _ => 'F'

/-- One byte under `application/x-www-form-urlencoded` serialization as the
`url` crate performs it: ASCII alphanumerics and `*`, `-`, `.`, `_` kept,
space becomes `+`, everything else percent-encoded in uppercase hex. -/
def formUrlByte (b : Nat) : List Char :=
  if (48 ≤ b ∧ b ≤ 57) ∨ (65 ≤ b ∧ b ≤ 90) ∨ (97 ≤ b ∧ b ≤ 122) ∨ b = 42 ∨ b = 45 ∨ b = 46 ∨ b = 95
  then [Char.ofNat b]
  else if b = 32 then ['+']
  else ['%', hexCharUpper (b >>> 4), hexCharUpper (b &&& 0xF)]

/-- Form-urlencoding of one string, byte by byte over its UTF-8 bytes. -/
def formUrlEncode (s : String) : String :=
  String.mk ((strBytes s).foldr (fun b acc => formUrlByte b ++ acc) [])

/-- The query string `Url::parse_with_params` appends for a parameter list:
`k=v` pairs form-urlencoded and joined with `&`, in the caller's order. -/
def urlEncodeParams (ps : List (String × String)) : String :=
  String.intercalate "&" (ps.map fun kv => formUrlEncode kv.1 ++ "=" ++ formUrlEncode kv.2)

/-- The compiled-in API base (the non-`dev` variant of `BASE`). -/
def BASE : String := "https://www.bitmex.com/api/v1"

/-- Models parsing `BASE` joined with `/` and the endpoint via `Url::parse`
(no params) or `Url::parse_with_params` (params), for endpoints that are
plain path segments as all of the repository's endpoints are: the path
component is the base's path `/api/v1` extended with the endpoint, and the
query is the encoded parameter list when one was supplied. -/
def buildUrl (endpoint : String) (params : Option (List (String × String))) : Url :=
  { path := "/api/v1/" ++ endpoint, query := params.map urlEncodeParams }

/-! ## Requests -/

/-- A fully built HTTP request, ready for dispatch: what
`Request::builder()...body(..)` produces, observed as method, URL, header
list in attachment order, and body string. -/
structure HttpRequest where
  method : Method
  url : Url
  headers : List (String × String)
  body : String
deriving DecidableEq, Repr

/-- Models `Transport::request` (unsigned): build the URL and the optional
JSON body, attach only `content-type`, and hand the request to the client.
Dispatch and response handling happen beyond the returned value. -/
def Transport.request (t : Transport) (method : Method) (endpoint : String)
    (params data : Option (List (String × String))) : Except BitMEXError HttpRequest :=
  .ok
    { method := method
      url := buildUrl endpoint params
      headers := [("content-type", "application/json")]
      body := bodyString data }

/-- Models `Transport::get`. -/
def Transport.get (t : Transport) (endpoint : String)
    (params : Option (List (String × String))) : Except BitMEXError HttpRequest :=
  t.request .GET endpoint params none

/-- The fixed signature-expiry window `EXPIRE_DURATION`, in seconds. -/
def EXPIRE_DURATION : Int := 5

/-- Models `Transport::signed_request`.  The wall clock read by
`Utc::now()` at the call is the explicit `now` argument (its unix
timestamp); `expires` is `now` plus `EXPIRE_DURATION`.  The signature is
computed with the GET verb token regardless of `method`, exactly as the
source passes `Method::GET`.  An error from the signer propagates before
any request value exists, so nothing is dispatched. -/
def Transport.signed_request (t : Transport) (method : Method) (endpoint : String)
    (params data : Option (List (String × String))) (now : Int) :
    Except BitMEXError HttpRequest :=
  let url := buildUrl endpoint params
  let body := bodyString data
  let expires := now + EXPIRE_DURATION
  match t.signature .GET expires url body with
  | .error e => .error e
  | .ok (key, sig) =>
      .ok
        { method := method
          url := url
          headers :=
            [("api-expires", toString expires), ("api-key", key),
             ("api-signature", sig), ("content-type", "application/json")]
          body := body }

/-- Models `Transport::signed_get`. -/
def Transport.signed_get (t : Transport) (endpoint : String)
    (params : Option (List (String × String))) (now : Int) : Except BitMEXError HttpRequest :=
  t.signed_request .GET endpoint params none now

/-- Models `Transport::signed_post`. -/
def Transport.signed_post (t : Transport) (endpoint : String)
    (data : Option (List (String × String))) (now : Int) : Except BitMEXError HttpRequest :=
  t.signed_request .POST endpoint none data now

/-- Models `Transport::signed_put`. -/
def Transport.signed_put (t : Transport) (endpoint : String)
    (params : Option (List (String × String))) (now : Int) : Except BitMEXError HttpRequest :=
  t.signed_request .PUT endpoint params none now

/-- Models `Transport::signed_delete`. -/
def Transport.signed_delete (t : Transport) (endpoint : String)
    (params : Option (List (String × String))) (now : Int) : Except BitMEXError HttpRequest :=
  t.signed_request .DELETE endpoint params none now

/-! ## Response decoding -/

/-- A JSON value, for the response envelope. -/
inductive Json where
  | null
  | bool (b : Bool)
  | num (n : Int)
  | str (s : String)
  | arr (elems : List Json)
  | obj (fields : List (String × Json))

/-- The field of a JSON object, if the value is an object carrying it. -/
def Json.getField : Json → String → Option Json
  | .obj fields, k => fields.lookup k
  | _, _ => none

/-- Modelled from the spec: the error object inside the response envelope,
a JSON object with a string `message` and an optional string `name`
(section 6: presence of an `error` field marks the failure case; section 7:
the API error carries the server message and optional name).  `none` means
the value does not deserialize as an error object. -/
def decodeErrorObject (e : Json) : Option (String × Option String) :=
  match e with
  | .obj _ =>
      match e.getField "message" with
      | some (.str m) =>
          match e.getField "name" with
          | some (.str n) => some (m, some n)
          | none => some (m, none)
          | some _ => none
      | _ => none
  | _ => none

/-- Modelled from the spec: `Transport::handle_response`'s decoding of the
received bytes through `BitMEXResponse<O>::to_result`, whose definition
lives in the repository's `error` module (not under `src/`).  `parsed` is
the outcome of the JSON parse of the body (`none` when the bytes are not
valid JSON) and `dec` is the deserializer of the caller's expected success
type `O`.  Per spec sections 4.4 and 9: a parse failure is a
deserialization error; an envelope carrying an `error` object fails with
the API error built from the server-supplied message and name (the
structural check for the error shape is performed first); otherwise the
payload must deserialize as `O`, and yields it. -/
def handle_response {O : Type} (dec : Json → Option O) (parsed : Option Json) :
    Except BitMEXError O :=
  match parsed with
  | none => .error .DecodeError
  | some j =>
      match j.getField "error" with
      | some e =>
          match decodeErrorObject e with
          | some (m, n) => .error (.ApiError m n)
          | none => .error .DecodeError
      | none =>
          match dec j with
          | some o => .ok o
          | none => .error .DecodeError

/-- The canonical message as the spec words it: VERB + PATH + "?" + QUERY +
EXPIRES + BODY when the URL has a query string, and VERB + PATH + EXPIRES +
BODY otherwise, where VERB is the uppercase method name, PATH the URL path
component only, EXPIRES the decimal string of the timestamp, and BODY the
exact body string. -/
def specCanonicalMessage (method : Method) (expires : Int) (url : Url) (body : String) : String :=
  match url.query with
  | some q => method.as_str ++ url.path ++ "?" ++ q ++ toString expires ++ body
  | none => method.as_str ++ url.path ++ toString expires ++ body

/-- Strict order on map entries by key. -/
def keyLt (a b : String × String) : Prop := a.1 < b.1

instance : IsAntisymm (String × String) keyLt :=
  ⟨fun _ _ h1 h2 => absurd h2 (lt_asymm h1)⟩

/-! ## Ordering facts about the sorted body map -/

theorem btreeInsert_subset {l : List (String × String)} {kv p : String × String}
    (h : p ∈ btreeInsert l kv) : p = kv ∨ p ∈ l := by
  induction l with
  | nil =>
      obtain ⟨k, v⟩ := kv
      simpa [btreeInsert] using h
  | cons hd tl ih =>
      obtain ⟨k, v⟩ := kv
      obtain ⟨k', v'⟩ := hd
      simp only [btreeInsert] at h
      split_ifs at h with h1 h2
      · rcases List.mem_cons.mp h with rfl | h' <;> simp_all
      · rcases List.mem_cons.mp h with rfl | h' <;> simp_all
      · rcases List.mem_cons.mp h with rfl | h'
        · simp
        · rcases ih h' with rfl | h'' <;> simp_all

theorem btreeInsert_pairwise {l : List (String × String)} {kv : String × String}
    (h : l.Pairwise keyLt) : (btreeInsert l kv).Pairwise keyLt := by
  induction l with
  | nil => simp [btreeInsert]
  | cons hd tl ih =>
      obtain ⟨k, v⟩ := kv
      obtain ⟨k', v'⟩ := hd
      rw [List.pairwise_cons] at h
      obtain ⟨hhd, htl⟩ := h
      simp only [btreeInsert]
      split_ifs with h1 h2
      · refine List.pairwise_cons.mpr ⟨?_, List.pairwise_cons.mpr ⟨hhd, htl⟩⟩
        intro p hp
        rcases List.mem_cons.mp hp with rfl | hp'
        · exact h1
        · exact lt_trans h1 (hhd p hp')
      · refine List.pairwise_cons.mpr ⟨?_, htl⟩
        intro p hp
        exact h2 ▸ hhd p hp
      · refine List.pairwise_cons.mpr ⟨?_, ih htl⟩
        intro p hp
        rcases btreeInsert_subset hp with rfl | hp'
        · exact lt_of_le_of_ne (le_of_not_lt h1) (Ne.symm h2)
        · exact hhd p hp'

theorem btreeInsert_perm {l : List (String × String)} {kv : String × String}
    (h : kv.1 ∉ l.map Prod.fst) : (btreeInsert l kv).Perm (kv :: l) := by
  induction l with
  | nil =>
      obtain ⟨k, v⟩ := kv
      simp [btreeInsert]
  | cons hd tl ih =>
      obtain ⟨k, v⟩ := kv
      obtain ⟨k', v'⟩ := hd
      simp only [List.map_cons, List.mem_cons] at h
      push_neg at h
      obtain ⟨hne, hmem⟩ := h
      simp only [btreeInsert]
      split_ifs with h1
      · exact List.Perm.refl _
      · exact ((ih hmem).cons _).trans (List.Perm.swap _ _ _)

theorem btreeFold_pairwise {l m : List (String × String)} (h : m.Pairwise keyLt) :
    (l.foldl btreeInsert m).Pairwise keyLt := by
  induction l generalizing m with
  | nil => simpa using h
  | cons hd tl ih => exact ih (btreeInsert_pairwise h)

theorem btreeFold_perm {l m : List (String × String)}
    (h : (m.map Prod.fst ++ l.map Prod.fst).Nodup) :
    (l.foldl btreeInsert m).Perm (m ++ l) := by
  induction l generalizing m with
  | nil => simp
  | cons hd tl ih =>
      rw [List.map_cons] at h
      obtain ⟨hm, hht, hdisj⟩ := List.nodup_append.mp h
      have hd_notin_m : hd.1 ∉ m.map Prod.fst := fun hc => hdisj hc (List.mem_cons_self _ _)
      have perm1 : (btreeInsert m hd).Perm (hd :: m) := btreeInsert_perm hd_notin_m
      have hkeys : ((btreeInsert m hd).map Prod.fst ++ tl.map Prod.fst).Nodup := by
        have hmid : ((hd :: m).map Prod.fst ++ tl.map Prod.fst).Nodup :=
          (List.perm_middle).nodup h
        exact (((perm1.map Prod.fst).append_right (tl.map Prod.fst)).nodup_iff).mpr hmid
      exact (ih hkeys).trans ((perm1.append_right tl).trans List.perm_middle.symm)

end BitMEX

namespace BitMEX

/-! ## The claims -/

/-- C1: for every credentialed Transport, HTTP method, expiry timestamp,
URL, and body string, the canonical message signed by `signature` is
exactly the concatenation VERB + PATH + "?" + QUERY + EXPIRES + BODY when
the URL has a query string, and VERB + PATH + EXPIRES + BODY otherwise,
with VERB the uppercase method name, PATH the URL path component only,
EXPIRES the decimal timestamp string and BODY the exact body string: the
returned signature is the hex HMAC-SHA256 of precisely that concatenation
(`specCanonicalMessage`) under the held secret. -/
theorem signature_signs_canonical_message_c1 (t : Transport) (k s : String)
    (h : t.credential = some (k, s)) (method : Method) (expires : Int) (url : Url)
    (body : String) :
    t.signature method expires url body =
      .ok (k, hexify (hmacSha256 (strBytes s)
        (strBytes (specCanonicalMessage method expires url body)))) := by
  unfold Transport.signature Transport.check_key
  rw [h]
  rfl

theorem signature_signs_canonical_message_c1_witness :
    (Transport.with_credential "key" "secret").credential = some ("key", "secret") ∧
    (Transport.with_credential "key" "secret").signature .GET 7 ⟨"/api/v1/instrument", none⟩ "" =
      .ok ("key", hexify (hmacSha256 (strBytes "secret")
        (strBytes (specCanonicalMessage .GET 7 ⟨"/api/v1/instrument", none⟩ "")))) :=
  ⟨rfl, signature_signs_canonical_message_c1 _ "key" "secret" rfl .GET 7 _ ""⟩

set_option maxRecDepth 200000 in
/-- C2: `Transport::signature` is deterministic — equal inputs give equal
results — and on the repository's fixed test vector (method GET, expires
1518064236, path `/api/v1/instrument`, empty body, the test secret) it
returns a 64-character lowercase-hex digest that begins with
`c7682d435d0cfe87c16098df34ef2eb5a549d4c5a3c2b1f0f77b8af7342`. -/
theorem signature_deterministic_and_vector_c2 :
    (∀ (t : Transport) (m : Method) (x : Int) (u : Url) (b : String),
      t.signature m x u b = t.signature m x u b) ∧
    (Transport.with_credential "LAqUlngMIQkIUjXMUreyu3qn"
        "chNOOS4KvNXR_Xq4k4c9qsfoKWvnDecLATCRlcBwyKDYnWgO").signature
        .GET 1518064236 ⟨"/api/v1/instrument", none⟩ "" =
      .ok ("LAqUlngMIQkIUjXMUreyu3qn",
        "c7682d435d0cfe87c16098df34ef2eb5a549d4c5a3c2b1f0f77b8af73423bf00") ∧
    ("c7682d435d0cfe87c16098df34ef2eb5a549d4c5a3c2b1f0f77b8af73423bf00" : String).length = 64 ∧
    ("c7682d435d0cfe87c16098df34ef2eb5a549d4c5a3c2b1f0f77b8af73423bf00" : String).take 59 =
      "c7682d435d0cfe87c16098df34ef2eb5a549d4c5a3c2b1f0f77b8af7342" ∧
    ("c7682d435d0cfe87c16098df34ef2eb5a549d4c5a3c2b1f0f77b8af73423bf00" : String).toList.all
      (fun c => c.isDigit || ('a' ≤ c && c ≤ 'f')) = true := by
  refine ⟨fun t m x u b => rfl, by rfl, by decide, by decide, by decide⟩

/-- C3: every signed request passes the GET verb token to the signer
regardless of the verb dispatched: for every verb the signed result is the
GET-signed result with only the dispatched method replaced, so headers —
the signature included — coincide; and each `signed_*` wrapper is
`signed_request` at its verb. -/
theorem signed_request_signs_as_get_c3 :
    (∀ (t : Transport) (m : Method) (e : String)
        (p d : Option (List (String × String))) (now : Int),
      t.signed_request m e p d now =
        (t.signed_request .GET e p d now).map (fun r => { r with method := m })) ∧
    (∀ (t : Transport) (e : String) (p : Option (List (String × String))) (now : Int),
      t.signed_get e p now = t.signed_request .GET e p none now) ∧
    (∀ (t : Transport) (e : String) (d : Option (List (String × String))) (now : Int),
      t.signed_post e d now = t.signed_request .POST e none d now) ∧
    (∀ (t : Transport) (e : String) (p : Option (List (String × String))) (now : Int),
      t.signed_put e p now = t.signed_request .PUT e p none now) ∧
    (∀ (t : Transport) (e : String) (p : Option (List (String × String))) (now : Int),
      t.signed_delete e p now = t.signed_request .DELETE e p none now) := by
  refine ⟨?_, fun _ _ _ _ => rfl, fun _ _ _ _ => rfl, fun _ _ _ _ => rfl, fun _ _ _ _ => rfl⟩
  intro t m e p d now
  simp only [Transport.signed_request]
  cases t.signature .GET (now + EXPIRE_DURATION) (buildUrl e p) (bodyString d) with
  | error err => rfl
  | ok kv => obtain ⟨key, sig⟩ := kv; rfl

/-- C5: every signed operation on a Transport whose credential is `none`
fails with `NoApiKeySet` — the credential check precedes the HMAC and no
request value is produced, so nothing reaches the wire — and a present
credential is the only thing the signer needs: with one, `signature`
always succeeds. -/
theorem no_credential_fails_c5 :
    (∀ (t : Transport), t.credential = none →
      ∀ (e : String) (p d : Option (List (String × String))) (now : Int)
        (m : Method) (x : Int) (u : Url) (b : String),
        t.signed_get e p now = .error .NoApiKeySet ∧
        t.signed_post e d now = .error .NoApiKeySet ∧
        t.signed_put e p now = .error .NoApiKeySet ∧
        t.signed_delete e p now = .error .NoApiKeySet ∧
        t.signed_request m e p d now = .error .NoApiKeySet ∧
        t.signature m x u b = .error .NoApiKeySet ∧
        t.check_key = .error .NoApiKeySet) ∧
    (∀ (t : Transport) (k s : String) (m : Method) (x : Int) (u : Url) (b : String),
      t.credential = some (k, s) →
      t.signature m x u b =
        .ok (k, hexify (hmacSha256 (strBytes s) (strBytes (sign_message m x u b))))) := by
  constructor
  · intro t h e p d now m x u b
    refine ⟨?_, ?_, ?_, ?_, ?_, ?_, ?_⟩ <;>
      simp [Transport.signed_get, Transport.signed_post, Transport.signed_put,
        Transport.signed_delete, Transport.signed_request, Transport.signature,
        Transport.check_key, h]
  · intro t k s m x u b h
    unfold Transport.signature Transport.check_key
    rw [h]

theorem no_credential_fails_c5_witness :
    Transport.new.credential = none ∧
    Transport.new.signed_get "instrument" none 0 = .error .NoApiKeySet ∧
    Transport.new.signed_post "order" none 0 = .error .NoApiKeySet ∧
    Transport.new.signature .GET 0 ⟨"/api/v1/instrument", none⟩ "" = .error .NoApiKeySet ∧
    (Transport.with_credential "k" "s").credential = some ("k", "s") ∧
    (Transport.with_credential "k" "s").signature .GET 0 ⟨"/api/v1/instrument", none⟩ "" =
      .ok ("k", hexify (hmacSha256 (strBytes "s")
        (strBytes (sign_message .GET 0 ⟨"/api/v1/instrument", none⟩ "")))) :=
  have H := no_credential_fails_c5.1 Transport.new rfl "instrument" none none 0 .GET 0
    ⟨"/api/v1/instrument", none⟩ ""
  have H2 := no_credential_fails_c5.1 Transport.new rfl "order" none none 0 .GET 0
    ⟨"/api/v1/instrument", none⟩ ""
  ⟨rfl, H.1, H2.2.1, H.2.2.2.2.2.1, rfl,
    no_credential_fails_c5.2 _ "k" "s" .GET 0 ⟨"/api/v1/instrument", none⟩ "" rfl⟩

/-- C7: for every signed request the expiry is computed inside the call,
from the clock value `now` read at send time, as `now + EXPIRE_DURATION`
with `EXPIRE_DURATION = 5`; the `api-expires` header carries exactly that
value. -/
theorem expires_at_send_time_c7 (t : Transport) (k s : String)
    (h : t.credential = some (k, s)) (m : Method) (e : String)
    (p d : Option (List (String × String))) (now : Int) :
    (t.signed_request m e p d now).map (fun r => r.headers.lookup "api-expires") =
      .ok (some (toString (now + EXPIRE_DURATION))) ∧ EXPIRE_DURATION = 5 := by
  constructor
  · unfold Transport.signed_request Transport.signature Transport.check_key
    rw [h]
    rfl
  · rfl

theorem expires_at_send_time_c7_witness :
    (Transport.with_credential "k" "s").credential = some ("k", "s") ∧
    (((Transport.with_credential "k" "s").signed_request .GET "instrument" none none 42).map
        (fun r => r.headers.lookup "api-expires") =
      .ok (some (toString (42 + EXPIRE_DURATION))) ∧ EXPIRE_DURATION = 5) :=
  ⟨rfl, expires_at_send_time_c7 _ "k" "s" rfl .GET "instrument" none none 42⟩

/-- C9: for every signed request, the `api-expires` header holds the same
expires value embedded in the canonical message handed to the signer
(both are the one `now + EXPIRE_DURATION` computed in the call), and the
`api-key` header is exactly the configured credential's key: the built
request is fully characterized. -/
theorem signed_headers_match_signer_inputs_c9 (t : Transport) (k s : String)
    (h : t.credential = some (k, s)) (m : Method) (e : String)
    (p d : Option (List (String × String))) (now : Int) :
    t.signed_request m e p d now = .ok
      { method := m
        url := buildUrl e p
        headers :=
          [("api-expires", toString (now + EXPIRE_DURATION)), ("api-key", k),
           ("api-signature", hexify (hmacSha256 (strBytes s)
             (strBytes (sign_message .GET (now + EXPIRE_DURATION) (buildUrl e p)
               (bodyString d))))),
           ("content-type", "application/json")]
        body := bodyString d } := by
  unfold Transport.signed_request Transport.signature Transport.check_key
  rw [h]

theorem signed_headers_match_signer_inputs_c9_witness :
    (Transport.with_credential "mykey" "s").credential = some ("mykey", "s") ∧
    (Transport.with_credential "mykey" "s").signed_request .PUT "order" none none 10 = .ok
      { method := .PUT
        url := buildUrl "order" none
        headers :=
          [("api-expires", toString ((10 : Int) + EXPIRE_DURATION)), ("api-key", "mykey"),
           ("api-signature", hexify (hmacSha256 (strBytes "s")
             (strBytes (sign_message .GET ((10 : Int) + EXPIRE_DURATION) (buildUrl "order" none)
               (bodyString none))))),
           ("content-type", "application/json")]
        body := bodyString none } :=
  ⟨rfl, signed_headers_match_signer_inputs_c9 _ "mykey" "s" rfl .PUT "order" none none 10⟩

/-- C10: the unsigned operations never consult the credential: `request`
yields the identical request for any two credentials, always succeeds with
no authentication headers (so `NoApiKeySet` cannot arise from it), and
`get` is a bodiless GET with only the content-type header. -/
theorem unsigned_ignores_credential_c10 :
    (∀ (c₁ c₂ : Option (String × String)) (m : Method) (e : String)
        (p d : Option (List (String × String))),
      Transport.request ⟨c₁⟩ m e p d = Transport.request ⟨c₂⟩ m e p d) ∧
    (∀ (t : Transport) (m : Method) (e : String) (p d : Option (List (String × String))),
      t.request m e p d = .ok
        { method := m, url := buildUrl e p,
          headers := [("content-type", "application/json")], body := bodyString d }) ∧
    (∀ (t : Transport) (e : String) (p : Option (List (String × String))),
      t.get e p = .ok
        { method := .GET, url := buildUrl e p,
          headers := [("content-type", "application/json")], body := "" }) :=
  ⟨fun _ _ _ _ _ _ => rfl, fun _ _ _ _ _ => rfl, fun _ _ _ => rfl⟩

/-- C4: the body fields of a signed request are collected into a key-sorted
mapping — so the serialized body is independent of the caller's iteration
order over distinct keys — and the compact JSON string of that mapping is
byte-for-byte both the BODY input that reaches the signer's canonical
message and the transmitted request body. -/
theorem body_sorted_signed_and_sent_c4 :
    (∀ (l₁ l₂ : List (String × String)), l₁.Perm l₂ → (l₁.map Prod.fst).Nodup →
      btreeOfList l₁ = btreeOfList l₂) ∧
    (∀ (t : Transport) (k s e : String) (d : List (String × String)) (now : Int),
      t.credential = some (k, s) →
      ((t.signed_request .POST e none (some d) now).map HttpRequest.body =
        .ok (jsonCompact (btreeOfList d)) ∧
       (t.signed_request .POST e none (some d) now).map
          (fun r => r.headers.lookup "api-signature") =
        .ok (some (hexify (hmacSha256 (strBytes s)
          (strBytes (sign_message .GET (now + EXPIRE_DURATION) (buildUrl e none)
            (jsonCompact (btreeOfList d))))))))) := by
  constructor
  · intro l₁ l₂ hperm hnodup
    have hsorted₁ : List.Sorted keyLt (btreeOfList l₁) := btreeFold_pairwise List.Pairwise.nil
    have hsorted₂ : List.Sorted keyLt (btreeOfList l₂) := btreeFold_pairwise List.Pairwise.nil
    have hperm₁ : (btreeOfList l₁).Perm l₁ := by
      simpa [btreeOfList] using btreeFold_perm (m := []) (l := l₁) (by simpa using hnodup)
    have hnodup₂ : (l₂.map Prod.fst).Nodup := ((hperm.map Prod.fst).nodup_iff).mp hnodup
    have hperm₂ : (btreeOfList l₂).Perm l₂ := by
      simpa [btreeOfList] using btreeFold_perm (m := []) (l := l₂) (by simpa using hnodup₂)
    exact List.eq_of_perm_of_sorted ((hperm₁.trans hperm).trans hperm₂.symm) hsorted₁ hsorted₂
  · intro t k s e d now h
    constructor <;>
    · unfold Transport.signed_request Transport.signature Transport.check_key
      rw [h]
      rfl

theorem body_sorted_signed_and_sent_c4_witness :
    ([("b", "2"), ("a", "1")] : List (String × String)).Perm [("a", "1"), ("b", "2")] ∧
    (([("b", "2"), ("a", "1")] : List (String × String)).map Prod.fst).Nodup ∧
    btreeOfList [("b", "2"), ("a", "1")] = btreeOfList [("a", "1"), ("b", "2")] ∧
    (Transport.with_credential "k" "s").credential = some ("k", "s") ∧
    ((Transport.with_credential "k" "s").signed_request .POST "order" none
        (some [("b", "2"), ("a", "1")]) 100).map HttpRequest.body =
      .ok (jsonCompact (btreeOfList [("b", "2"), ("a", "1")])) :=
  ⟨by decide, by decide,
    body_sorted_signed_and_sent_c4.1 _ _ (by decide) (by decide), rfl,
    (body_sorted_signed_and_sent_c4.2 _ "k" "s" "order" [("b", "2"), ("a", "1")] 100 rfl).1⟩

/-- C6: the response decoding pipeline discriminates structurally and
exclusively (`handle_response` is a function, so no input resolves two
ways): a payload whose envelope carries an error object yields the API
error built from the server-supplied message and name, a payload without
an error field that deserializes as the caller's expected type yields that
success value, and a payload that is neither — unparseable, an
undecodable error object, or a non-error body the success decoder
rejects — yields the deserialization error. -/
theorem envelope_discrimination_c6 :
    (∀ (O : Type) (dec : Json → Option O),
      handle_response dec none = (.error .DecodeError : Except BitMEXError O)) ∧
    (∀ (O : Type) (dec : Json → Option O) (j e : Json) (m : String) (n : Option String),
      j.getField "error" = some e → decodeErrorObject e = some (m, n) →
      handle_response dec (some j) = (.error (.ApiError m n) : Except BitMEXError O)) ∧
    (∀ (O : Type) (dec : Json → Option O) (j : Json) (o : O),
      j.getField "error" = none → dec j = some o →
      handle_response dec (some j) = .ok o) ∧
    (∀ (O : Type) (dec : Json → Option O) (j : Json),
      j.getField "error" = none → dec j = none →
      handle_response dec (some j) = (.error .DecodeError : Except BitMEXError O)) ∧
    (∀ (O : Type) (dec : Json → Option O) (j e : Json),
      j.getField "error" = some e → decodeErrorObject e = none →
      handle_response dec (some j) = (.error .DecodeError : Except BitMEXError O)) := by
  refine ⟨fun O dec => rfl, ?_, ?_, ?_, ?_⟩
  · intro O dec j e m n h1 h2
    simp only [handle_response, h1, h2]
  · intro O dec j o h1 h2
    simp only [handle_response, h1, h2]
  · intro O dec j h1 h2
    simp only [handle_response, h1, h2]
  · intro O dec j e h1 h2
    simp only [handle_response, h1, h2]

theorem envelope_discrimination_c6_witness :
    (Json.obj [("error", Json.obj [("message", Json.str "x"), ("name", Json.str "y")])]).getField
        "error" = some (Json.obj [("message", Json.str "x"), ("name", Json.str "y")]) ∧
    decodeErrorObject (Json.obj [("message", Json.str "x"), ("name", Json.str "y")]) =
      some ("x", some "y") ∧
    handle_response (fun j => match j with | .str s => some s | _ => none)
        (some (Json.obj [("error", Json.obj [("message", Json.str "x"), ("name", Json.str "y")])])) =
      (.error (.ApiError "x" (some "y")) : Except BitMEXError String) ∧
    (Json.str "payload").getField "error" = none ∧
    handle_response (fun j => match j with | .str s => some s | _ => none)
        (some (Json.str "payload")) = (.ok "payload" : Except BitMEXError String) ∧
    handle_response (fun j => match j with | .str s => some s | _ => none)
        (some (Json.num 3)) = (.error .DecodeError : Except BitMEXError String) ∧
    handle_response (fun j => match j with | .str s => some s | _ => none) none =
      (.error .DecodeError : Except BitMEXError String) :=
  ⟨rfl, rfl,
    envelope_discrimination_c6.2.1 String _ _ _ "x" (some "y") rfl rfl,
    rfl,
    envelope_discrimination_c6.2.2.1 String _ _ "payload" rfl rfl,
    envelope_discrimination_c6.2.2.2.1 String _ (Json.num 3) rfl rfl,
    envelope_discrimination_c6.1 String _⟩

set_option maxRecDepth 200000 in
/-- C8: for otherwise identical inputs, the canonical message with a query
string always differs from the one without (the query case inserts the
`?query` segment), and on the repository's test vector the two resulting
signatures differ; the modelled query encoding reproduces the encoded
query of that test exactly. -/
theorem query_changes_message_and_signature_c8 :
    (∀ (m : Method) (x : Int) (p q b : String),
      (sign_message m x ⟨p, some q⟩ b == sign_message m x ⟨p, none⟩ b) = false) ∧
    urlEncodeParams [("filter", "\x7b\"symbol\": \"XBTM15\"\x7d")] =
      "filter=%7B%22symbol%22%3A+%22XBTM15%22%7D" ∧
    (Transport.with_credential "LAqUlngMIQkIUjXMUreyu3qn"
        "chNOOS4KvNXR_Xq4k4c9qsfoKWvnDecLATCRlcBwyKDYnWgO").signature
        .GET 1518064237 ⟨"/api/v1/instrument", some "filter=%7B%22symbol%22%3A+%22XBTM15%22%7D"⟩ "" =
      .ok ("LAqUlngMIQkIUjXMUreyu3qn",
        "e2f422547eecb5b3cb29ade2127e21b858b235b386bfa45e1c1756eb3383919f") ∧
    (Transport.with_credential "LAqUlngMIQkIUjXMUreyu3qn"
        "chNOOS4KvNXR_Xq4k4c9qsfoKWvnDecLATCRlcBwyKDYnWgO").signature
        .GET 1518064237 ⟨"/api/v1/instrument", none⟩ "" =
      .ok ("LAqUlngMIQkIUjXMUreyu3qn",
        "fe390b9ffa7006238398cee89696b396dac2aa8495c87dc5ae34ffdeb9b8ac7e") ∧
    (("e2f422547eecb5b3cb29ade2127e21b858b235b386bfa45e1c1756eb3383919f" : String) ==
      "fe390b9ffa7006238398cee89696b396dac2aa8495c87dc5ae34ffdeb9b8ac7e") = false := by
  refine ⟨?_, by rfl, by rfl, by rfl, by rfl⟩
  intro m x p q b
  apply beq_eq_false_iff_ne.mpr
  intro hEq
  have hq : ("?" : String).length = 1 := rfl
  have hl := congrArg String.length hEq
  simp only [sign_message, String.length_append, hq] at hl
  omega

end BitMEX
